import Mathlib

/-!
Shallow embedding of serve.py, the local development server of the
financial-atlas repository, together with proofs of the specified
properties of its request handler, change notifier and orchestrator.

Timestamps returned by time.time are modelled as rationals; the file
system, the probe socket and the bind outcome are modelled as explicit
oracles passed to the corresponding functions.
-/

/- ------------------------------------------------------------------ -/
/- Request handler: CORSHTTPRequestHandler, serve.py lines 19 to 40.  -/
/- ------------------------------------------------------------------ -/

/-- The fixed header lines sent by CORSHTTPRequestHandler.end_headers,
serve.py lines 24 to 29, in source order. -/
def corsHeaders : List (String × String) :=
  [("Access-Control-Allow-Origin", "*"),
   ("Access-Control-Allow-Methods", "GET, POST, OPTIONS"),
   ("Access-Control-Allow-Headers", "Content-Type"),
   ("Cache-Control", "no-cache, no-store, must-revalidate"),
   ("Pragma", "no-cache"),
   ("Expires", "0")]

/-- HTTP methods the embedding distinguishes. -/
inductive Method
  | GET
  | HEAD
  | POST
  | OPTIONS
deriving DecidableEq

/-- An HTTP response as the handler builds it: status line, header block,
body, whether any file-system lookup was attempted while producing it, and
whether the header section has been finalized. -/
structure Response where
  status : Nat
  headers : List (String × String)
  body : String
  fsAccessed : Bool
  finalized : Bool
deriving DecidableEq

/-- CORSHTTPRequestHandler.end_headers, serve.py lines 22 to 30: appends
the six fixed CORS and cache headers to the pending header block, then
defers to the base implementation, which finalizes the header section. -/
def end_headers (r : Response) : Response :=
  { r with headers := r.headers ++ corsHeaders, finalized := true }

/-- CORSHTTPRequestHandler.do_OPTIONS, serve.py lines 32 to 35: sends
status 200 and finishes the headers; no body is written and the file
system is never consulted. -/
def do_OPTIONS : Response :=
  end_headers { status := 200, headers := [], body := "", fsAccessed := false, finalized := false }

/-- Stdlib SimpleHTTPRequestHandler static file resolution, abstracted:
the document root is a partial map from request path to file contents; a
hit answers 200 with the contents (HEAD omits the body), a miss answers
404. Both outcomes are finished through the overridden end_headers. -/
def serveStatic (m : Method) (path : String) (fs : String → Option String) : Response :=
  match fs path with
  | some content =>
    end_headers { status := 200, headers := [], body := if m = Method.HEAD then "" else content,
                  fsAccessed := true, finalized := false }
  | none =>
    end_headers { status := 404, headers := [], body := "File not found",
                  fsAccessed := true, finalized := false }

/-- Dispatch of one request by CORSHTTPRequestHandler: OPTIONS is answered
by do_OPTIONS; GET and HEAD fall through to the inherited static file
resolution; POST has no handler in SimpleHTTPRequestHandler and is
answered 501 through send_error, which also ends with end_headers. -/
def handleRequest (m : Method) (path : String) (fs : String → Option String) : Response :=
  match m with
  | Method.OPTIONS => do_OPTIONS
  | Method.POST =>
    end_headers { status := 501, headers := [], body := "Unsupported method",
                  fsAccessed := false, finalized := false }
  | _ => serveStatic m path fs

/- ------------------------------------------------------------------ -/
/- Change notifier: FileChangeHandler, serve.py lines 42 to 59.       -/
/- ------------------------------------------------------------------ -/

/-- The kinds of filesystem events watchdog can deliver. -/
inductive EventKind
  | created
  | deleted
  | moved
  | modified
deriving DecidableEq

/-- A filesystem event as watchdog presents it to a handler. -/
structure FsEvent where
  kind : EventKind
  src_path : String
  is_directory : Bool
deriving DecidableEq

/-- The tuple of suffixes tested at serve.py line 54. -/
def watchedSuffixes : List String := [".html", ".css", ".js"]

/-- The test event.src_path.endswith at serve.py line 54: endswith on a
tuple is true when some member is a suffix of the character sequence. -/
def isWatchedPath (p : String) : Bool :=
  watchedSuffixes.any (fun s => s.data.isSuffixOf p.data)

/-- FileChangeHandler.on_modified, serve.py lines 49 to 59. The state is
the last_modified table (path to last-notified timestamp); the result is
the updated table and the path handed to the callback, if any. The event
is dropped for directories and unwatched suffixes; otherwise it is
delivered exactly when the path is absent from the table or now minus the
stored timestamp exceeds 1, and only then is the table written. -/
def on_modified (last_modified : String → Option Rat) (event : FsEvent) (now : Rat) :
    (String → Option Rat) × Option String :=
  if event.is_directory then (last_modified, none)
  else if isWatchedPath event.src_path then
    if (match last_modified event.src_path with
        | none => true
        | some prev => decide (now - prev > 1)) then
      (fun q => if q = event.src_path then some now else last_modified q, some event.src_path)
    else (last_modified, none)
  else (last_modified, none)

/-- Watchdog routes each event to the handler method of its kind.
FileChangeHandler overrides only on_modified; every other kind falls to
the inherited no-op default, so the table and the callback are untouched. -/
def dispatch (last_modified : String → Option Rat) (event : FsEvent) (now : Rat) :
    (String → Option Rat) × Option String :=
  match event.kind with
  | EventKind.modified => on_modified last_modified event now
  | _ => (last_modified, none)

/-- Folds dispatch over a timed event sequence, starting from a given
table, collecting the paths delivered to the callback in order. -/
def processEvents (last_modified : String → Option Rat) :
    List (Rat × FsEvent) → (String → Option Rat) × List String
  | [] => (last_modified, [])
  | (t, e) :: rest =>
    let step := dispatch last_modified e t
    let next := processEvents step.1 rest
    (next.1, (match step.2 with | some p => [p] | none => []) ++ next.2)

/- ------------------------------------------------------------------ -/
/- Validation and address resolution, serve.py lines 74 to 98.        -/
/- ------------------------------------------------------------------ -/

/-- required_files, serve.py line 76. -/
def required_files : List String := ["index.html"]

/-- The missing_files list built at serve.py lines 77 to 81. -/
def missing_files (path_exists : String → Bool) : List String :=
  required_files.filter (fun f => ! path_exists f)

/-- check_dependencies, serve.py lines 74 to 87: true exactly when no
required file is missing from the working directory. -/
def check_dependencies (path_exists : String → Bool) : Bool :=
  (missing_files path_exists).isEmpty

/-- get_network_ip, serve.py lines 89 to 98. The UDP probe either yields
the locally bound address of the socket or raises some exception; the
bare except clause turns any failure into the loopback address. -/
def get_network_ip (probe : Except String String) : String :=
  match probe with
  | Except.ok addr => addr
  | Except.error _ => "127.0.0.1"

/- ------------------------------------------------------------------ -/
/- Orchestrator: main, serve.py lines 100 to 216.                     -/
/- ------------------------------------------------------------------ -/

/-- The resolved command line options of serve.py lines 113 to 138. -/
structure Args where
  port : Nat
  no_browser : Bool
  no_watch : Bool
  host : String

/-- Outcome of start_file_watcher once watchdog is importable: the
observer starts, or some OS-level exception escapes Observer start. -/
inductive WatcherResult
  | started
  | osFailure (msg : String)
deriving DecidableEq

/-- Outcome of the TCPServer constructor at serve.py line 163: the
listener binds, or an OSError with the given errno and message is raised. -/
inductive BindResult
  | bound
  | osError (errno : Nat) (msg : String)
deriving DecidableEq

/-- The environment main runs against: the file system seen after the
chdir to the script directory, the watcher start outcome and the bind
outcome. -/
structure Env where
  path_exists : String → Bool
  watcher : WatcherResult
  bind : BindResult

/-- Observable actions of one run of main, in order. -/
inductive Act
  | chdirScriptDir
  | missingFilesMsg (files : List String)
  | watcherStarted
  | watcherWarning (msg : String)
  | bindListener (host : String) (port : Nat)
  | openBrowser (url : String)
  | serveForever
  | stoppedByUser
  | portInUseMsg (port : Nat)
  | suggestPortMsg (suggested : Nat)
  | serverErrorMsg (msg : String)
deriving DecidableEq

/-- The URL printed and opened at serve.py lines 188 to 190. -/
def localUrl (port : Nat) : String := "http://127.0.0.1:" ++ toString port

/-- main, serve.py lines 100 to 213, as a trace of actions plus the
process exit code. The chdir comes first; a failed dependency check exits
1 before any network resource is touched; the watcher block catches its
exceptions and merely warns; the bind failure branch distinguishes errno
48 (commented Address already in use) and suggests port + 1, any other
OSError is reported, both exiting 1; a successful bind prints, schedules
the browser on the loopback URL unless suppressed, and serves until the
interrupt, which ends the run normally (exit code 0). -/
def mainRun (args : Args) (env : Env) : List Act × Nat :=
  let pre := [Act.chdirScriptDir]
  if check_dependencies env.path_exists = false then
    (pre ++ [Act.missingFilesMsg (missing_files env.path_exists)], 1)
  else
    let watchActs :=
      if args.no_watch then []
      else
        match env.watcher with
        | WatcherResult.started => [Act.watcherStarted]
        | WatcherResult.osFailure m => [Act.watcherWarning m]
    match env.bind with
    | BindResult.osError errno m =>
      if errno = 48 then
        (pre ++ watchActs ++ [Act.portInUseMsg args.port, Act.suggestPortMsg (args.port + 1)], 1)
      else
        (pre ++ watchActs ++ [Act.serverErrorMsg m], 1)
    | BindResult.bound =>
      let browserActs :=
        if args.no_browser then [] else [Act.openBrowser (localUrl args.port)]
      (pre ++ watchActs ++ [Act.bindListener args.host args.port] ++ browserActs
        ++ [Act.serveForever, Act.stoppedByUser], 0)

/-- Result of running the script as a process. -/
inductive ScriptResult
  | importCrash (msg : String)
  | ran (trace : List Act) (exitCode : Nat)
deriving DecidableEq

/-- Running python serve.py: lines 16 and 17 import watchdog at module
level, before main is entered, so a missing package raises ImportError
outside every try block and the interpreter dies without reaching main;
the except ImportError clause at line 154 can never fire. -/
def runScript (watchdogInstalled : Bool) (args : Args) (env : Env) : ScriptResult :=
  if watchdogInstalled then
    let r := mainRun args env
    ScriptResult.ran r.1 r.2
  else
    ScriptResult.importCrash "No module named watchdog"

/- ------------------------------------------------------------------ -/
/- Helper lemmas.                                                     -/
/- ------------------------------------------------------------------ -/

theorem end_headers_mem (r : Response) (hd : String × String) (h : hd ∈ corsHeaders) :
    hd ∈ (end_headers r).headers := by
  simp only [end_headers, List.mem_append]
  exact Or.inr h

theorem end_headers_finalized (r : Response) : (end_headers r).finalized = true := rfl

theorem handleRequest_via_end_headers (m : Method) (p : String) (fs : String → Option String) :
    ∃ r, handleRequest m p fs = end_headers r := by
  cases m
  case OPTIONS => exact ⟨_, rfl⟩
  case POST => exact ⟨_, rfl⟩
  case GET =>
    unfold handleRequest serveStatic
    cases fs p <;> exact ⟨_, rfl⟩
  case HEAD =>
    unfold handleRequest serveStatic
    cases fs p <;> exact ⟨_, rfl⟩

theorem dispatch_no_delivery (lm : String → Option Rat) (e : FsEvent) (t : Rat)
    (h : e.kind ≠ EventKind.modified ∨ isWatchedPath e.src_path = false) :
    dispatch lm e t = (lm, none) := by
  rcases h with hk | hw
  · cases hek : e.kind <;> simp [dispatch, hek]
    exact absurd hek hk
  · cases hek : e.kind <;> simp [dispatch, hek, on_modified, hw]

/- ------------------------------------------------------------------ -/
/- Claims.                                                            -/
/- ------------------------------------------------------------------ -/

/-- C1: a watched-path modification event is delivered to the callback
only when the path has no table entry or strictly more than one second of
wall-clock time separates it from the stored last-delivery timestamp, and
two modification events for the same watched path at most one second
apart produce at most one delivery. -/
theorem debounce_at_most_once (lm : String → Option Rat) (p : String) (t1 t2 : Rat)
    (hp : isWatchedPath p = true) (h12 : t2 - t1 ≤ 1) :
    (∀ prev, lm p = some prev →
      (dispatch lm ⟨EventKind.modified, p, false⟩ t1).2 ≠ none → t1 - prev > 1)
    ∧ (processEvents lm
        [(t1, ⟨EventKind.modified, p, false⟩),
         (t2, ⟨EventKind.modified, p, false⟩)]).2.length ≤ 1 := by
  constructor
  · intro prev hprev hne
    by_cases hgt : t1 - prev > 1
    · exact hgt
    · exfalso
      exact hne (by simp [dispatch, on_modified, hp, hprev, hgt])
  · have h2 : ¬ (t2 - t1 > 1) := by linarith
    cases hl : lm p with
    | none =>
      simp [processEvents, dispatch, on_modified, hp, hl, h2]
    | some prev =>
      by_cases hgt : t1 - prev > 1
      · simp [processEvents, dispatch, on_modified, hp, hl, hgt, h2]
      · simp only [processEvents, dispatch, on_modified, hp, hl]
        by_cases hgt2 : t2 - prev > 1 <;>
          simp [hl, hgt, hgt2]

/-- C1 witness: two modifications of style.css half a second apart,
starting from an empty table, yield at most one delivery. -/
theorem debounce_at_most_once_witness :
    (processEvents (fun _ => none)
      [((0:Rat), ⟨EventKind.modified, "style.css", false⟩),
       ((1:Rat)/2, ⟨EventKind.modified, "style.css", false⟩)]).2.length ≤ 1 :=
  (debounce_at_most_once (fun _ => none) "style.css" 0 ((1:Rat)/2)
    (by decide) (by norm_num)).2

/-- C2 counterexample: the fixed header block appended by end_headers has
six entries, not five as the claim counts them. -/
theorem cors_header_count_is_six :
    corsHeaders.length = 6 ∧ ¬ corsHeaders.length = 5 := by decide

/-- C2 (amended): every response, for any method and any path, carries
all six fixed CORS and cache headers, which are appended before the
header section is finalized. -/
theorem cors_headers_in_every_response (m : Method) (p : String) (fs : String → Option String) :
    (∀ hd, hd ∈ corsHeaders → hd ∈ (handleRequest m p fs).headers)
    ∧ (handleRequest m p fs).finalized = true := by
  obtain ⟨r, hr⟩ := handleRequest_via_end_headers m p fs
  rw [hr]
  exact ⟨fun hd h => end_headers_mem r hd h, end_headers_finalized r⟩

/-- C2 witness: a GET for a missing path still answers with the Pragma
header in its header block. -/
theorem cors_headers_in_every_response_witness :
    ("Pragma", "no-cache") ∈ (handleRequest Method.GET "/index.html" (fun _ => none)).headers :=
  (cors_headers_in_every_response Method.GET "/index.html" (fun _ => none)).1
    ("Pragma", "no-cache") (by decide)

/-- C3 counterexample: a qualifying modification of app.js half a second
after the recorded delivery leaves the debounce table entry at its old
value instead of updating it, refuting mutation on every qualifying
event. -/
theorem debounce_table_not_always_updated :
    (dispatch (fun q => if q = "app.js" then some (0:Rat) else none)
        ⟨EventKind.modified, "app.js", false⟩ ((1:Rat)/2)).1 "app.js" = some 0
    ∧ ¬ ((dispatch (fun q => if q = "app.js" then some (0:Rat) else none)
        ⟨EventKind.modified, "app.js", false⟩ ((1:Rat)/2)).1 "app.js" = some ((1:Rat)/2)) := by
  constructor
  · simp [dispatch, on_modified, isWatchedPath, watchedSuffixes]
    norm_num
  · simp [dispatch, on_modified, isWatchedPath, watchedSuffixes]
    norm_num

/-- C3 (amended): for a qualifying event (non-directory modification of a
watched suffix) the table entry for the path is set to the event time
exactly when the event is delivered to the callback; a qualifying event
suppressed by the debounce leaves the whole table unchanged. -/
theorem debounce_table_update (lm : String → Option Rat) (e : FsEvent) (now : Rat)
    (hd : e.is_directory = false) (hk : e.kind = EventKind.modified)
    (hw : isWatchedPath e.src_path = true) :
    ((dispatch lm e now).2 = some e.src_path → (dispatch lm e now).1 e.src_path = some now)
    ∧ ((dispatch lm e now).2 = none → (dispatch lm e now).1 = lm) := by
  have hdisp : dispatch lm e now = on_modified lm e now := by
    unfold dispatch
    rw [hk]
  rw [hdisp]
  cases hl : lm e.src_path with
  | none =>
    simp [on_modified, hd, hw, hl]
  | some prev =>
    by_cases hgt : now - prev > 1 <;>
      simp [on_modified, hd, hw, hl, hgt]

/-- C3 amendment witness: a first-time modification of a.css is delivered
and its table entry is set to the event time. -/
theorem debounce_table_update_witness :
    (dispatch (fun _ => none) ⟨EventKind.modified, "a.css", false⟩ 2).1 "a.css" = some 2 :=
  (debounce_table_update (fun _ => none) ⟨EventKind.modified, "a.css", false⟩ 2
    rfl rfl (by decide)).1 (by decide)

/-- C4: with the dependency check passed and the bind raising an OSError,
the errno the code identifies as address-in-use (48) makes the run exit
with code 1 after printing the suggestion of the requested port plus one,
and any other bind-time errno makes the run report the error and also
exit with code 1. -/
theorem bind_error_exit (args : Args) (env : Env) (errno : Nat) (msg : String)
    (hdep : check_dependencies env.path_exists = true)
    (hbind : env.bind = BindResult.osError errno msg) :
    (errno = 48 →
      Act.suggestPortMsg (args.port + 1) ∈ (mainRun args env).1 ∧ (mainRun args env).2 = 1)
    ∧ (¬ errno = 48 →
      Act.serverErrorMsg msg ∈ (mainRun args env).1 ∧ (mainRun args env).2 = 1) := by
  by_cases h48 : errno = 48
  · subst h48
    refine ⟨fun _ => ?_, fun hne => absurd rfl hne⟩
    simp [mainRun, hdep, hbind]
  · refine ⟨fun heq => absurd heq h48, fun _ => ?_⟩
    simp [mainRun, hdep, hbind, h48]

/-- C4 witness: requested port 8000, errno 48 at bind, all required files
present: the suggestion names port 8001. -/
theorem bind_error_exit_witness :
    Act.suggestPortMsg 8001 ∈
      (mainRun ⟨8000, true, true, "127.0.0.1"⟩
        ⟨fun _ => true, WatcherResult.started,
         BindResult.osError 48 "Address already in use"⟩).1 :=
  ((bind_error_exit ⟨8000, true, true, "127.0.0.1"⟩
      ⟨fun _ => true, WatcherResult.started,
       BindResult.osError 48 "Address already in use"⟩
      48 "Address already in use" (by decide) rfl).1 rfl).1

/-- C5: the claim that a missing watchdog dependency never terminates the
process fails on the code: the module-level import of watchdog happens
before main is entered, so with the package absent the interpreter dies
with an ImportError and the except ImportError clause inside main is
unreachable. -/
theorem missing_watchdog_kills_process :
    runScript false ⟨8000, false, false, "127.0.0.1"⟩
      ⟨fun _ => true, WatcherResult.started, BindResult.bound⟩
      = ScriptResult.importCrash "No module named watchdog" := rfl

/-- C6: an OPTIONS request to any path over any document root answers
status 200 with an empty body, attempts no file-system access and so
bypasses static file resolution. -/
theorem options_returns_200_empty_no_fs (p : String) (fs : String → Option String) :
    (handleRequest Method.OPTIONS p fs).status = 200
    ∧ (handleRequest Method.OPTIONS p fs).body = ""
    ∧ (handleRequest Method.OPTIONS p fs).fsAccessed = false :=
  ⟨rfl, rfl, rfl⟩

/-- C7: when index.html is absent from the serving directory the run
exits with code 1 and its trace contains no listener bind at all. -/
theorem missing_index_exits_before_bind (args : Args) (env : Env)
    (h : env.path_exists "index.html" = false) :
    (mainRun args env).2 = 1
    ∧ ∀ host port, Act.bindListener host port ∉ (mainRun args env).1 := by
  have hdep : check_dependencies env.path_exists = false := by
    simp [check_dependencies, missing_files, required_files, h]
  simp [mainRun, hdep]

/-- C7 witness: an empty directory makes the run exit with code 1. -/
theorem missing_index_exits_before_bind_witness :
    (mainRun ⟨8000, false, false, "127.0.0.1"⟩
      ⟨fun _ => false, WatcherResult.started, BindResult.bound⟩).2 = 1 :=
  (missing_index_exits_before_bind ⟨8000, false, false, "127.0.0.1"⟩
    ⟨fun _ => false, WatcherResult.started, BindResult.bound⟩ rfl).1

/-- C8: over any sequence of events in which every event is either not a
modification or names a path outside the watched suffixes, no delivery to
the callback ever happens, whatever the starting table and however many
events occur. -/
theorem unwatched_events_never_fire (lm : String → Option Rat) (evts : List (Rat × FsEvent))
    (h : ∀ te ∈ evts, te.2.kind ≠ EventKind.modified ∨ isWatchedPath te.2.src_path = false) :
    (processEvents lm evts).2 = [] := by
  induction evts generalizing lm with
  | nil => rfl
  | cons te rest ih =>
    obtain ⟨t, e⟩ := te
    have hstep : dispatch lm e t = (lm, none) :=
      dispatch_no_delivery lm e t (h (t, e) (by simp))
    simp only [processEvents, hstep]
    simpa using ih lm (fun te hte => h te (by simp [hte]))

/-- C8 witness: a creation, two rapid modifications of an unwatched text
file and a deletion produce no deliveries. -/
theorem unwatched_events_never_fire_witness :
    (processEvents (fun _ => none)
      [((0:Rat), ⟨EventKind.created, "index.html", false⟩),
       ((0:Rat), ⟨EventKind.modified, "notes.txt", false⟩),
       ((5:Rat), ⟨EventKind.modified, "notes.txt", false⟩),
       ((6:Rat), ⟨EventKind.deleted, "app.js", false⟩)]).2 = [] :=
  unwatched_events_never_fire (fun _ => none) _ (by decide)

/-- C9: get_network_ip is total over every probe outcome: any raised
exception yields the loopback address and a successful probe yields the
locally bound address of the socket. -/
theorem get_network_ip_total (probe : Except String String) :
    (∀ msg, probe = Except.error msg → get_network_ip probe = "127.0.0.1")
    ∧ (∀ addr, probe = Except.ok addr → get_network_ip probe = addr) := by
  cases probe <;> simp [get_network_ip]

/-- C9 witness: an unreachable network resolves to the loopback address. -/
theorem get_network_ip_total_witness :
    get_network_ip (Except.error "Network is unreachable") = "127.0.0.1" :=
  (get_network_ip_total (Except.error "Network is unreachable")).1
    "Network is unreachable" rfl

/-- C10: with auto-open enabled and startup succeeding, the trace opens
the browser on the loopback URL built from the configured port, and every
browser open in the trace uses exactly that URL, whatever host the
listener was bound to. -/
theorem browser_opens_loopback (args : Args) (env : Env)
    (hb : args.no_browser = false)
    (hdep : check_dependencies env.path_exists = true)
    (hbind : env.bind = BindResult.bound) :
    Act.openBrowser ("http://127.0.0.1:" ++ toString args.port) ∈ (mainRun args env).1
    ∧ ∀ url, Act.openBrowser url ∈ (mainRun args env).1 →
        url = "http://127.0.0.1:" ++ toString args.port := by
  cases hwr : env.watcher <;> by_cases hw : args.no_watch <;>
    simp [mainRun, hdep, hbind, hb, hw, hwr, localUrl]

/-- C10 witness: bound to the wildcard host on port 8000, the browser is
still opened on the loopback URL. -/
theorem browser_opens_loopback_witness :
    Act.openBrowser ("http://127.0.0.1:" ++ toString 8000) ∈
      (mainRun ⟨8000, false, true, "0.0.0.0"⟩
        ⟨fun _ => true, WatcherResult.started, BindResult.bound⟩).1 :=
  (browser_opens_loopback ⟨8000, false, true, "0.0.0.0"⟩
    ⟨fun _ => true, WatcherResult.started, BindResult.bound⟩ rfl (by decide) rfl).1
